import Mathlib

/-!
Shallow embedding of the offline exam-integrity analysis pipeline
(`src/offline_processor.py`) and verification of its specification.

The embedding translates the module function-by-function:

* module constants `FRAME_STRIDE`, `OBJ_DETECT_EVERY`, `MF_DETECT_EVERY`;
* dataclasses `AlertEvent` and `SessionSummary`;
* the debounce counters `_gaze_away_frames` / `_mouth_moving_frames` /
  `_multi_face_frames` of `OfflineExamAnalyzer` (structure `Counters`);
* `_generate_alerts` (function `generate_alerts`);
* the frame loop of `analyze_video` (function `videoLoop`), including the
  per-frame detector fan-out of lines 124-142 (function `stepFrame`);
* the verdict computation of `_save_session_log` (function `session_verdict`);
* `analyze_video` itself, with filesystem effects (directories created,
  files written) returned as explicit data.

External collaborators (the five detectors, the audio analyzer, the three
scoring functions) are modelled by their declared contracts: detector results
are values of the declared type, values of an unexpected runtime type, or a
raised exception (`DetRes`); scoring functions are opaque rational-valued
parameters.  Python floats are modelled as rationals; the decimal rendering of
a frame index inside an f-string is modelled by `decRepr`.
-/

/-! ## Generic debounce state machine

`_generate_alerts` drives three independent consecutive-frame counters with
the same policy: increment while the signal holds, reset on a false signal,
fire and reset when the counter reaches the threshold.  `debounceStep` /
`debounceTrace` capture that policy; correspondence lemmas below tie them to
`generate_alerts`. -/

/-- The decimation factor: only every 5th raw frame is analyzed
(`FRAME_STRIDE = 5`). -/
def FRAME_STRIDE : Nat := 5

/-- Object detection runs only on every 10th processed frame
(`OBJ_DETECT_EVERY = 10`). -/
def OBJ_DETECT_EVERY : Nat := 10

/-- Multi-face detection runs only on every 4th processed frame
(`MF_DETECT_EVERY = 4`). -/
def MF_DETECT_EVERY : Nat := 4

/-- An object record returned by the object detector.  The pipeline treats it
as opaque (it is stored verbatim in the alert's `details`), so it is modelled
as an opaque payload. -/
abbrev Obj := String

/-- The `details` mapping of an `AlertEvent`: `{}` for face/gaze/mouth alerts,
`{"num_faces": n}` for MULTI_FACE, the object's own record for
OBJECT_DETECTED. -/
inductive Details where
  | empty : Details
  | numFaces (n : Int) : Details
  | obj (o : Obj) : Details
deriving DecidableEq

/-- The `AlertEvent` dataclass.  Timestamps (Python floats) are modelled as
rationals. -/
structure AlertEvent where
  session_id : String
  timestamp : ℚ
  frame_index : Nat
  type : String
  severity : String
  image_path : Option String
  details : Details
deriving DecidableEq

/-- The `SessionSummary` dataclass. -/
structure SessionSummary where
  session_id : String
  duration_seconds : ℚ
  num_frames : Nat
  fps : ℚ
  alerts : List AlertEvent
deriving DecidableEq

/-- The three instance-scoped debounce counters of `OfflineExamAnalyzer`
(`self._gaze_away_frames`, `self._mouth_moving_frames`,
`self._multi_face_frames`). -/
structure Counters where
  gaze_away_frames : Nat
  mouth_moving_frames : Nat
  multi_face_frames : Nat
deriving DecidableEq

/-- The counters as `__init__` leaves them: all zero. -/
def Counters.zero : Counters := ⟨0, 0, 0⟩

/-- Decimal digit list of `n` (most significant first) as characters;
`decChars 0 = ['0']`.  This is the character sequence Python's f-string
produces for a non-negative integer. -/
def decChars (n : Nat) : List Char :=
  if n = 0 then ['0'] else ((Nat.digits 10 n).map Nat.digitChar).reverse

/-- Decimal rendering of a frame index, as interpolated by the f-string in
`save_evidence`. -/
def decRepr (n : Nat) : String := ⟨decChars n⟩

/-- The `save_evidence` closure of `_generate_alerts`:
`path = evidence_dir / f"{tag}_{frame_idx}.jpg"` (the image write is recorded
by returning the path; every alert stores it in `image_path`). -/
def save_evidence (evidence_dir tag : String) (frame_idx : Nat) : String :=
  evidence_dir ++ "/" ++ tag ++ "_" ++ decRepr frame_idx ++ ".jpg"

/-- The per-processed-frame signals handed to `_generate_alerts`
(its parameters `face_present`, `gaze_direction`, `mouth_moving`,
`multiple_faces`, `num_faces`, `object_list`). -/
structure FrameSignals where
  face_present : Bool
  gaze_direction : String
  mouth_moving : Bool
  multiple_faces : Bool
  num_faces : Int
  object_list : List Obj
deriving DecidableEq

/-- `OfflineExamAnalyzer._generate_alerts`, translated statement by statement.
Input: the signals of one processed frame and the current counter state.
Output: the alerts appended on this frame (in source order: face gate, gaze
debounce, mouth debounce, multi-face debounce, one alert per detected object)
and the updated counters. -/
def generate_alerts (session_id : String) (frame_idx : Nat) (t : ℚ)
    (evidence_dir : String) (s : FrameSignals) (st : Counters) :
    List AlertEvent × Counters :=
  let faceAlerts : List AlertEvent :=
    if s.face_present then [] else
      [⟨session_id, t, frame_idx, "FACE_MISSING", "medium",
        some (save_evidence evidence_dir "face_missing" frame_idx), .empty⟩]
  let g1 := if s.gaze_direction ≠ "center" then st.gaze_away_frames + 1 else 0
  let gazeAlerts : List AlertEvent :=
    if 3 ≤ g1 then
      [⟨session_id, t, frame_idx, "GAZE_AWAY", "medium",
        some (save_evidence evidence_dir "gaze_away" frame_idx), .empty⟩]
    else []
  let g2 := if 3 ≤ g1 then 0 else g1
  let m1 := if s.mouth_moving then st.mouth_moving_frames + 1 else 0
  let mouthAlerts : List AlertEvent :=
    if 3 ≤ m1 then
      [⟨session_id, t, frame_idx, "MOUTH_MOVEMENT", "medium",
        some (save_evidence evidence_dir "mouth" frame_idx), .empty⟩]
    else []
  let m2 := if 3 ≤ m1 then 0 else m1
  let f1 := if s.multiple_faces then st.multi_face_frames + 1 else 0
  let mfAlerts : List AlertEvent :=
    if 5 ≤ f1 then
      [⟨session_id, t, frame_idx, "MULTI_FACE", "high",
        some (save_evidence evidence_dir "multi_face" frame_idx),
        .numFaces s.num_faces⟩]
    else []
  let f2 := if 5 ≤ f1 then 0 else f1
  let objAlerts : List AlertEvent :=
    s.object_list.map fun o =>
      ⟨session_id, t, frame_idx, "OBJECT_DETECTED", "high",
        some (save_evidence evidence_dir "object" frame_idx), .obj o⟩
  (faceAlerts ++ gazeAlerts ++ mouthAlerts ++ mfAlerts ++ objAlerts,
    ⟨g2, m2, f2⟩)

/-- The result of one detector call: a value of the declared type, a value of
an unexpected runtime type (with the truthiness Python would assign it), or a
raised exception. -/
inductive DetRes (α : Type) where
  | val (a : α) : DetRes α
  | wrongType (truthy : Bool) : DetRes α
  | raised : DetRes α
deriving DecidableEq

/-- Whether the detector call raised. -/
def DetRes.isRaised {α : Type} : DetRes α → Bool
  | .raised => true
  | _ => false

/-- Whether the detector call returned a value of the declared type. -/
def DetRes.isVal {α : Type} : DetRes α → Bool
  | .val _ => true
  | _ => false

/-- One raw video frame, modelled by the detector results it would produce:
`detect_face`, `track_eyes` (the direction component), `monitor_mouth`,
`detect_multiple_faces`, `detect_objects`. -/
structure FrameData where
  face : DetRes Bool
  gaze : DetRes String
  mouth : DetRes Bool
  mf : DetRes Int
  objects : DetRes (List Obj)
deriving DecidableEq

/-- A frame on which every enabled detector returns without raising (the gaze
tracker must also return a proper pair, since `analyze_video` unpacks it). -/
def cleanFrame (fd : FrameData) : Bool :=
  !fd.face.isRaised && fd.gaze.isVal && !fd.mouth.isRaised &&
    !fd.mf.isRaised && !fd.objects.isRaised

/-- The per-detector enable flags read from `cfg["detection"]` in
`__init__`. -/
structure DetConfig where
  face_enabled : Bool
  eyes_enabled : Bool
  mouth_enabled : Bool
  multi_face_enabled : Bool
  objects_enabled : Bool
deriving DecidableEq

/-- Errors that escape `analyze_video`: the explicit
`RuntimeError(f"Cannot open video: {path}")`, or an exception raised by a
detector call (uncaught by the loop body). -/
inductive AnalysisError where
  | cannotOpen (path : String) : AnalysisError
  | detectorError : AnalysisError
deriving DecidableEq

/-- Line 124: `face_present = self.face_detector.detect_face(frame) if
self.face_detector else True`.  The value feeds only the `if not face_present`
test, so a wrong-typed result acts through its truthiness; a raised exception
propagates. -/
def read_face (enabled : Bool) (r : DetRes Bool) : Except AnalysisError Bool :=
  if enabled then
    match r with
    | .val b => .ok b
    | .wrongType t => .ok t
    | .raised => .error .detectorError
  else .ok true

/-- Lines 126-128: `gaze_dir, _ = self.eye_tracker.track_eyes(frame)` when the
tracker is enabled, else `"center"`.  The tuple unpacking raises on a
wrong-typed (non-pair) result, so only a proper value continues. -/
def read_gaze (enabled : Bool) (r : DetRes String) :
    Except AnalysisError String :=
  if enabled then
    match r with
    | .val s => .ok s
    | .wrongType _ => .error .detectorError
    | .raised => .error .detectorError
  else .ok "center"

/-- Line 130: `mouth_moving = self.mouth_monitor.monitor_mouth(frame) if
self.mouth_monitor else False`; like the face value it feeds only an `if`. -/
def read_mouth (enabled : Bool) (r : DetRes Bool) :
    Except AnalysisError Bool :=
  if enabled then
    match r with
    | .val b => .ok b
    | .wrongType t => .ok t
    | .raised => .error .detectorError
  else .ok false

/-- Lines 132-136: `last_objects = []`, then every `OBJ_DETECT_EVERY`-th
processed frame `res = detect_objects(frame); last_objects = res if
isinstance(res, list) else []`.  Off cadence (or with the detector disabled)
the submitted list is the freshly assigned `[]`. -/
def read_objects (enabled : Bool) (p : Nat) (r : DetRes (List Obj)) :
    Except AnalysisError (List Obj) :=
  if enabled ∧ p % OBJ_DETECT_EVERY = 0 then
    match r with
    | .val l => .ok l
    | .wrongType _ => .ok []
    | .raised => .error .detectorError
  else .ok []

/-- Lines 138-142: every `MF_DETECT_EVERY`-th processed frame
`mf = detect_multiple_faces(frame); last_faces = mf if isinstance(mf, int)
else 1; last_multi = last_faces > 1`; off cadence the held-over pair is
kept. -/
def read_mf (enabled : Bool) (p : Nat) (last_faces : Int) (last_multi : Bool)
    (r : DetRes Int) : Except AnalysisError (Int × Bool) :=
  if enabled ∧ p % MF_DETECT_EVERY = 0 then
    match r with
    | .val n => .ok (n, decide (1 < n))
    | .wrongType _ => .ok ((1 : Int), decide (1 < (1 : Int)))
    | .raised => .error .detectorError
  else .ok (last_faces, last_multi)

/-- Lines 124-142 of `analyze_video`: the detector fan-out for one processed
frame, in source order (face, gaze, mouth, objects, multi-face), each step
propagating a raised exception.  Returns the signals handed to
`_generate_alerts` together with the updated `last_faces` / `last_multi`. -/
def stepFrame (cfg : DetConfig) (p : Nat) (last_faces : Int)
    (last_multi : Bool) (fd : FrameData) :
    Except AnalysisError (FrameSignals × Int × Bool) :=
  match read_face cfg.face_enabled fd.face with
  | .error e => .error e
  | .ok face_present =>
    match read_gaze cfg.eyes_enabled fd.gaze with
    | .error e => .error e
    | .ok gaze_dir =>
      match read_mouth cfg.mouth_enabled fd.mouth with
      | .error e => .error e
      | .ok mouth_moving =>
        match read_objects cfg.objects_enabled p fd.objects with
        | .error e => .error e
        | .ok last_objects =>
          match read_mf cfg.multi_face_enabled p last_faces last_multi
              fd.mf with
          | .error e => .error e
          | .ok (last_faces', last_multi') =>
            .ok (⟨face_present, gaze_dir, mouth_moving, last_multi',
              last_faces', last_objects⟩, last_faces', last_multi')

/-- The observable outcome of the `while` loop of `analyze_video`: all alerts
fired (their evidence images are written as they fire, even if a later frame
raises), the counter state left on the analyzer instance, the final value of
`frame_idx`, whether a detector exception aborted the loop, and — as a ghost
observation for the cadence/holdover properties — the signals submitted to
`_generate_alerts` for each processed frame, paired with its raw index. -/
structure LoopOut where
  alerts : List AlertEvent
  submitted : List (Nat × FrameSignals)
  counters : Counters
  final_frame_idx : Nat
  aborted : Bool
deriving DecidableEq

/-- The `while` loop of `analyze_video` (lines 109-161), over the list of
decodable raw frames.  `stride` is `FRAME_STRIDE` (kept as a parameter so the
sampling property can be stated for every stride).  A raw frame whose index is
not a multiple of the stride is read and discarded; a processed frame runs the
detector fan-out (`stepFrame`) and the alert machine (`generate_alerts`) with
`t = frame_idx / fps`. -/
def videoLoop (stride : Nat) (cfg : DetConfig) (session_id evidence_dir : String)
    (fps : ℚ) (frames : List FrameData) (frame_idx processed_idx : Nat)
    (last_faces : Int) (last_multi : Bool) (st : Counters) : LoopOut :=
  match frames with
  | [] => ⟨[], [], st, frame_idx, false⟩
  | fd :: rest =>
    if frame_idx % stride ≠ 0 then
      videoLoop stride cfg session_id evidence_dir fps rest (frame_idx + 1)
        processed_idx last_faces last_multi st
    else
      match stepFrame cfg processed_idx last_faces last_multi fd with
      | .error _ => ⟨[], [], st, frame_idx, true⟩
      | .ok (sig, lf', lm') =>
        let t : ℚ := frame_idx / fps
        let r := generate_alerts session_id frame_idx t evidence_dir sig st
        let out := videoLoop stride cfg session_id evidence_dir fps rest
          (frame_idx + 1) (processed_idx + 1) lf' lm' r.2
        ⟨r.1 ++ out.alerts, (frame_idx, sig) :: out.submitted,
          out.counters, out.final_frame_idx, out.aborted⟩

/-- `Counter(a["type"] for a in alerts_list).get(ty, 0)`: the number of alerts
of a given type. -/
def alert_type_count (alerts : List AlertEvent) (ty : String) : Nat :=
  alerts.countP fun a => a.type == ty

/-- The verdict computation of `_save_session_log` (lines 267-271):
start from `"CLEAN"`, overwrite with `"CHEATING"` when a MULTI_FACE or
OBJECT_DETECTED alert is present, else with `"SUSPICIOUS"` when the overall
score is below 0.7 or more than 5 alerts were collected. -/
def session_verdict (alerts_list : List AlertEvent) (overall_score : ℚ) :
    String :=
  if 0 < alert_type_count alerts_list "MULTI_FACE" ∨
      0 < alert_type_count alerts_list "OBJECT_DETECTED" then "CHEATING"
  else if overall_score < 7/10 ∨ 5 < alerts_list.length then "SUSPICIOUS"
  else "CLEAN"

/-- Opaque result of the external `SpeakerConsistencyAnalyzer.analyze`. -/
abbrev AudioSummary := String

/-- The three external scoring functions (`compute_video_score` receives
`{"total_alerts": ..., "by_type": ...}` and the alert list). -/
structure ScoringFns where
  compute_video_score : Nat → (String → Nat) → List AlertEvent → ℚ
  compute_audio_score : Option AudioSummary → ℚ
  compute_overall_score : ℚ → ℚ → ℚ

/-- The persisted session record (`_save_session_log`'s JSON document, minus
the wall-clock `generated_at` field). -/
structure SessionRecord where
  session : SessionSummary
  verdict : String
  alerts : List AlertEvent
  video_score : ℚ
  audio_score : ℚ
  overall_score : ℚ
  audio : Option AudioSummary

/-- `self.logs_dir / f"{session_id}.json"`. -/
def session_log_path (logs_dir session_id : String) : String :=
  logs_dir ++ "/" ++ session_id ++ ".json"

/-- `OfflineExamAnalyzer._save_session_log`: scores and verdict from the
collected alerts and the audio summary.  Returns the record content (the JSON
file's path is `session_log_path`). -/
def save_session_log (scoring : ScoringFns) (summary : SessionSummary)
    (audio_summary : Option AudioSummary) : SessionRecord :=
  let alerts_list := summary.alerts
  let video_score := scoring.compute_video_score alerts_list.length
    (alert_type_count alerts_list) alerts_list
  let audio_score := scoring.compute_audio_score audio_summary
  let overall_score := scoring.compute_overall_score video_score audio_score
  ⟨summary, session_verdict alerts_list overall_score, alerts_list,
    video_score, audio_score, overall_score, audio_summary⟩

/-- `f"{Path(video_path).stem}_{datetime.now().strftime(...)}"`; the stem and
the formatted clock value are inputs. -/
def generate_session_id (stem now : String) : String := stem ++ "_" ++ now

/-- A video source: its path and stem, whether `cv2.VideoCapture` can open it,
the frame rate it reports (0 when missing), and its decodable raw frames. -/
structure VideoSource where
  path : String
  stem : String
  opens : Bool
  fps0 : ℚ
  frames : List FrameData

/-- The configuration- and constructor-derived state of one
`OfflineExamAnalyzer` instance (minus the debounce counters, which are passed
explicitly so their flow across calls stays visible). -/
structure AnalyzerEnv where
  cfg : DetConfig
  logs_dir : String
  audio_enabled : Bool
  scoring : ScoringFns
  speaker_analyze : String → AudioSummary

/-- `self.evidence_root = self.logs_dir / "evidence"`. -/
def evidence_root (env : AnalyzerEnv) : String := env.logs_dir ++ "/evidence"

/-- Everything `analyze_video` does that is visible to its caller or to the
filesystem: directories created, files written (in order: evidence images as
alerts fire, then the session JSON), the returned summary or the propagated
exception, the record persisted (when any), the counters left on the instance,
all fired alerts, and the ghost trace of submitted per-frame signals. -/
structure AnalyzeOut where
  dirs_created : List String
  files_written : List String
  result : Except AnalysisError SessionSummary
  record : Option SessionRecord
  counters_out : Counters
  alerts : List AlertEvent
  submitted : List (Nat × FrameSignals)

/-- `OfflineExamAnalyzer.analyze_video`.  `counters_in` is the instance's
debounce-counter state at call time (`__init__` sets it to `Counters.zero`;
the body never resets it).  `now` is the formatted wall clock used when no
session id is supplied.  Ordering follows the source: derive the session id,
create the evidence directory, then try to open the video (raising
`cannotOpen` on failure); run the loop; on normal termination build the
summary, run the audio analyzer when enabled and supplied, and persist the
session record. -/
def analyze_video (env : AnalyzerEnv) (video : VideoSource)
    (audio_path : Option String) (session_id : Option String) (now : String)
    (counters_in : Counters) : AnalyzeOut :=
  let sid := session_id.getD (generate_session_id video.stem now)
  let evidence_dir := evidence_root env ++ "/" ++ sid
  let dirs := [evidence_dir]
  if ¬ video.opens then
    ⟨dirs, [], .error (.cannotOpen video.path), none, counters_in, [], []⟩
  else
    let fps : ℚ := if video.fps0 = 0 then 30 else video.fps0
    let out := videoLoop FRAME_STRIDE env.cfg sid evidence_dir fps
      video.frames 0 0 1 false counters_in
    let evidence_files := out.alerts.filterMap (·.image_path)
    if out.aborted then
      ⟨dirs, evidence_files, .error .detectorError, none, out.counters,
        out.alerts, out.submitted⟩
    else
      let summary : SessionSummary :=
        ⟨sid, (out.final_frame_idx : ℚ) / fps, out.final_frame_idx, fps,
          out.alerts⟩
      let audio_summary : Option AudioSummary :=
        match audio_path with
        | some p => if env.audio_enabled then some (env.speaker_analyze p)
                    else none
        | none => none
      let record := save_session_log env.scoring summary audio_summary
      ⟨dirs, evidence_files ++ [session_log_path env.logs_dir sid],
        .ok summary, some record, out.counters, out.alerts, out.submitted⟩

/-- One debounce update: incoming counter `c`, signal `sig`; returns whether
an alert fires on this frame and the outgoing counter. -/
def debounceStep (th c : Nat) (sig : Bool) : Bool × Nat :=
  let c1 := if sig then c + 1 else 0
  if th ≤ c1 then (true, 0) else (false, c1)

/-- Per-frame fire flags of the debounce machine over a signal sequence. -/
def debounceTrace (th : Nat) : Nat → List Bool → List Bool
  | _, [] => []
  | c, sig :: rest =>
    let r := debounceStep th c sig
    r.1 :: debounceTrace th r.2 rest

/-- Driver that feeds one processed frame after another to `generate_alerts`,
exactly as the loop of `analyze_video` does, and records each frame's alert
batch.  Input entries pair the raw frame index with the frame's signals. -/
def alertsPerFrame (session_id evidence_dir : String) (fps : ℚ) :
    Counters → List (Nat × FrameSignals) → List (List AlertEvent)
  | _, [] => []
  | st, (idx, sig) :: rest =>
    let r := generate_alerts session_id idx ((idx : ℚ) / fps) evidence_dir
      sig st
    r.1 :: alertsPerFrame session_id evidence_dir fps r.2 rest

/-- Attach consecutive indices (starting at `i`) to a list of frame
signals. -/
def withIdx : Nat → List FrameSignals → List (Nat × FrameSignals)
  | _, [] => []
  | i, s :: rest => (i, s) :: withIdx (i + 1) rest

/-- Signals of a frame on which every detector reports its neutral value. -/
def neutralSig : FrameSignals := ⟨true, "center", false, false, 1, []⟩

/-- Signals of a frame on which the gaze is away from center. -/
def gazeAwaySig : FrameSignals := ⟨true, "left", false, false, 1, []⟩

/-- Signals of a frame on which the mouth is moving. -/
def mouthMovingSig : FrameSignals := ⟨true, "center", true, false, 1, []⟩

/-- Signals of a frame on which two faces are visible. -/
def multiFaceSig : FrameSignals := ⟨true, "center", false, true, 2, []⟩

/-- A burst pattern: `a` neutral frames, `k` frames with signal `s`, `b`
neutral frames. -/
def sigBurst (s : FrameSignals) (a k b : Nat) : List FrameSignals :=
  List.replicate a neutralSig ++ List.replicate k s ++
    List.replicate b neutralSig

/-- A raw frame on which every detector returns its neutral value. -/
def neutralFD : FrameData :=
  ⟨.val true, .val "center", .val false, .val 1, .val []⟩

/-- A configuration with every detector enabled. -/
def cfgAll : DetConfig := ⟨true, true, true, true, true⟩

/-- Seven neutral raw frames. -/
def frames7 : List FrameData := List.replicate 7 neutralFD

/-- Scoring functions returning constant 1 (the scoring policy is external;
any instantiation works for the properties proved here). -/
def scoring0 : ScoringFns := ⟨fun _ _ _ => 1, fun _ => 1, fun _ _ => 1⟩

/-- Analyzer with only the object detector enabled. -/
def envObj : AnalyzerEnv :=
  ⟨⟨false, false, false, false, true⟩, "logs/sessions", false, scoring0,
    fun _ => ""⟩

/-- A raw frame on which the object detector reports one phone. -/
def objFD : FrameData :=
  ⟨.val true, .val "center", .val false, .val 1, .val ["phone"]⟩

/-- A 6-raw-frame video (processed frames at raw indices 0 and 5) on which
every object-detector call returns `["phone"]`. -/
def vidObj : VideoSource := ⟨"c.mp4", "c", true, 30, List.replicate 6 objFD⟩

/-- Analyzer with only the eye tracker enabled. -/
def envEyes : AnalyzerEnv :=
  ⟨⟨false, true, false, false, false⟩, "logs/sessions", false, scoring0,
    fun _ => ""⟩

/-- A raw frame on which the gaze is reported away from center. -/
def gazeFD : FrameData :=
  ⟨.val true, .val "left", .val false, .val 1, .val []⟩

/-- First session's video: 6 raw frames, so processed frames are raw 0 and 5,
and the gaze is away on both — the gaze counter ends the session at 2,
below the alert threshold 3. -/
def vidA : VideoSource :=
  ⟨"a.mp4", "a", true, 30,
    [gazeFD, neutralFD, neutralFD, neutralFD, neutralFD, gazeFD]⟩

/-- Second session's video: a single raw frame with the gaze away. -/
def vidB : VideoSource := ⟨"b.mp4", "b", true, 30, [gazeFD]⟩

/-- Analyzer with every detector enabled. -/
def envAll : AnalyzerEnv :=
  ⟨cfgAll, "logs/sessions", false, scoring0, fun _ => ""⟩

/-- A raw frame on which the face detector raises an exception. -/
def raisedFaceFD : FrameData :=
  ⟨.raised, .val "center", .val false, .val 1, .val []⟩

/-- A 1-frame video whose only frame makes the face detector raise. -/
def vidRaise : VideoSource := ⟨"e.mp4", "e", true, 30, [raisedFaceFD]⟩

/-- A video source that cannot be opened. -/
def vidBad : VideoSource := ⟨"x.mp4", "x", false, 30, []⟩

/-- Another unopenable video source (zero reported fps). -/
def vidBad2 : VideoSource := ⟨"y.mp4", "y", false, 0, []⟩

/-- The evidence tag used by `save_evidence` for each alert type. -/
def typeTag (ty : String) : String :=
  if ty = "FACE_MISSING" then "face_missing"
  else if ty = "GAZE_AWAY" then "gaze_away"
  else if ty = "MOUTH_MOVEMENT" then "mouth"
  else if ty = "MULTI_FACE" then "multi_face"
  else "object"

/-- Shape invariant of every alert fired by `_generate_alerts`: its evidence
path is the session's evidence directory plus its type's tag and its own
frame index, and its type is one of the five alert types. -/
def alertPathWF (evidence_dir : String) (a : AlertEvent) : Prop :=
  a.image_path
      = some (save_evidence evidence_dir (typeTag a.type) a.frame_index)
    ∧ a.type ∈ (["FACE_MISSING", "GAZE_AWAY", "MOUTH_MOVEMENT", "MULTI_FACE",
        "OBJECT_DETECTED"] : List String)

/-- Two alerts may share an evidence path only when both are OBJECT_DETECTED
alerts of the same processed frame. -/
def pathCollisionOnlyObjects (a b : AlertEvent) : Prop :=
  a.image_path = b.image_path →
    a.type = "OBJECT_DETECTED" ∧ b.type = "OBJECT_DETECTED"
      ∧ a.frame_index = b.frame_index

/-- A raw frame on which the object detector reports two objects. -/
def objFD2 : FrameData :=
  ⟨.val true, .val "center", .val false, .val 1, .val ["phone", "book"]⟩

/-- A 1-frame video whose only processed frame carries two detected
objects. -/
def vidObj2 : VideoSource := ⟨"d.mp4", "d", true, 30, [objFD2]⟩

theorem map_snd_withIdx {β : Type} (g : FrameSignals → β) :
    ∀ (i : Nat) (l : List FrameSignals),
      (withIdx i l).map (fun x => g x.2) = l.map g := by
  intro i l
  induction l generalizing i with
  | nil => rfl
  | cons s rest ih => simp [withIdx, ih]

theorem countP_ite_singleton (c : Prop) [Decidable c] (a : AlertEvent)
    (p : AlertEvent → Bool) :
    List.countP p (if c then [a] else []) =
      if c then (if p a then 1 else 0) else 0 := by
  split_ifs <;> simp_all [List.countP_cons]

theorem countP_ite_singleton' (c : Prop) [Decidable c] (a : AlertEvent)
    (p : AlertEvent → Bool) :
    List.countP p (if c then [] else [a]) =
      if c then 0 else (if p a then 1 else 0) := by
  split_ifs <;> simp_all [List.countP_cons]

theorem generate_alerts_gaze (session_id : String) (frame_idx : Nat) (t : ℚ)
    (evidence_dir : String) (s : FrameSignals) (st : Counters) :
    alert_type_count
        (generate_alerts session_id frame_idx t evidence_dir s st).1
        "GAZE_AWAY"
      = (if (debounceStep 3 st.gaze_away_frames
          (s.gaze_direction != "center")).1 then 1 else 0)
    ∧ (generate_alerts session_id frame_idx t evidence_dir s st).2.gaze_away_frames
      = (debounceStep 3 st.gaze_away_frames (s.gaze_direction != "center")).2 := by
  unfold generate_alerts debounceStep alert_type_count
  simp only [bne_iff_ne]
  constructor
  · by_cases hg : s.gaze_direction = "center" <;>
      by_cases h3 : 3 ≤ st.gaze_away_frames + 1 <;>
        simp +decide [hg, h3, List.countP_append, countP_ite_singleton,
          countP_ite_singleton', List.countP_map, Function.comp,
          List.countP_false]
  · by_cases hg : s.gaze_direction = "center" <;>
      by_cases h3 : 3 ≤ st.gaze_away_frames + 1 <;>
        simp [hg, h3]

theorem generate_alerts_mouth (session_id : String) (frame_idx : Nat) (t : ℚ)
    (evidence_dir : String) (s : FrameSignals) (st : Counters) :
    alert_type_count
        (generate_alerts session_id frame_idx t evidence_dir s st).1
        "MOUTH_MOVEMENT"
      = (if (debounceStep 3 st.mouth_moving_frames s.mouth_moving).1
          then 1 else 0)
    ∧ (generate_alerts session_id frame_idx t evidence_dir s st).2.mouth_moving_frames
      = (debounceStep 3 st.mouth_moving_frames s.mouth_moving).2 := by
  unfold generate_alerts debounceStep alert_type_count
  constructor
  · by_cases hm : s.mouth_moving = true <;>
      by_cases h3 : 3 ≤ st.mouth_moving_frames + 1 <;>
        simp +decide [hm, h3, List.countP_append, countP_ite_singleton,
          countP_ite_singleton', List.countP_map, Function.comp,
          List.countP_false]
  · by_cases hm : s.mouth_moving = true <;>
      by_cases h3 : 3 ≤ st.mouth_moving_frames + 1 <;>
        simp [hm, h3]

theorem generate_alerts_mf (session_id : String) (frame_idx : Nat) (t : ℚ)
    (evidence_dir : String) (s : FrameSignals) (st : Counters) :
    alert_type_count
        (generate_alerts session_id frame_idx t evidence_dir s st).1
        "MULTI_FACE"
      = (if (debounceStep 5 st.multi_face_frames s.multiple_faces).1
          then 1 else 0)
    ∧ (generate_alerts session_id frame_idx t evidence_dir s st).2.multi_face_frames
      = (debounceStep 5 st.multi_face_frames s.multiple_faces).2 := by
  unfold generate_alerts debounceStep alert_type_count
  constructor
  · by_cases hm : s.multiple_faces = true <;>
      by_cases h5 : 5 ≤ st.multi_face_frames + 1 <;>
        simp +decide [hm, h5, List.countP_append, countP_ite_singleton,
          countP_ite_singleton', List.countP_map, Function.comp,
          List.countP_false]
  · by_cases hm : s.multiple_faces = true <;>
      by_cases h5 : 5 ≤ st.multi_face_frames + 1 <;>
        simp [hm, h5]

theorem alertsPerFrame_gaze (session_id evidence_dir : String) (fps : ℚ) :
    ∀ (l : List (Nat × FrameSignals)) (st : Counters),
      (alertsPerFrame session_id evidence_dir fps st l).map
          (fun as => alert_type_count as "GAZE_AWAY")
        = (debounceTrace 3 st.gaze_away_frames
            (l.map fun x => x.2.gaze_direction != "center")).map
            (fun b => if b then 1 else 0) := by
  intro l
  induction l with
  | nil => intro st; rfl
  | cons x rest ih =>
    intro st
    obtain ⟨idx, sig⟩ := x
    have h := generate_alerts_gaze session_id idx ((idx : ℚ) / fps)
      evidence_dir sig st
    simp only [alertsPerFrame, debounceTrace, List.map_cons]
    rw [ih, h.1, h.2]

theorem alertsPerFrame_mouth (session_id evidence_dir : String) (fps : ℚ) :
    ∀ (l : List (Nat × FrameSignals)) (st : Counters),
      (alertsPerFrame session_id evidence_dir fps st l).map
          (fun as => alert_type_count as "MOUTH_MOVEMENT")
        = (debounceTrace 3 st.mouth_moving_frames
            (l.map fun x => x.2.mouth_moving)).map
            (fun b => if b then 1 else 0) := by
  intro l
  induction l with
  | nil => intro st; rfl
  | cons x rest ih =>
    intro st
    obtain ⟨idx, sig⟩ := x
    have h := generate_alerts_mouth session_id idx ((idx : ℚ) / fps)
      evidence_dir sig st
    simp only [alertsPerFrame, debounceTrace, List.map_cons]
    rw [ih, h.1, h.2]

theorem alertsPerFrame_mf (session_id evidence_dir : String) (fps : ℚ) :
    ∀ (l : List (Nat × FrameSignals)) (st : Counters),
      (alertsPerFrame session_id evidence_dir fps st l).map
          (fun as => alert_type_count as "MULTI_FACE")
        = (debounceTrace 5 st.multi_face_frames
            (l.map fun x => x.2.multiple_faces)).map
            (fun b => if b then 1 else 0) := by
  intro l
  induction l with
  | nil => intro st; rfl
  | cons x rest ih =>
    intro st
    obtain ⟨idx, sig⟩ := x
    have h := generate_alerts_mf session_id idx ((idx : ℚ) / fps)
      evidence_dir sig st
    simp only [alertsPerFrame, debounceTrace, List.map_cons]
    rw [ih, h.1, h.2]

theorem debounceStep_false (th c : Nat) (h : 0 < th) :
    debounceStep th c false = (false, 0) := by
  unfold debounceStep
  simp only [Bool.false_eq_true, if_false]
  rw [if_neg (show ¬ th ≤ 0 by omega)]

theorem debounceStep_true (th c : Nat) :
    debounceStep th c true = if th ≤ c + 1 then (true, 0) else (false, c + 1) := by
  unfold debounceStep
  simp only [if_pos rfl, if_true]

theorem debounceTrace_false_run (th : Nat) (hth : 0 < th) :
    ∀ (a : Nat) (l : List Bool),
      debounceTrace th 0 (List.replicate a false ++ l)
        = List.replicate a false ++ debounceTrace th 0 l := by
  intro a
  induction a with
  | zero => intro l; rfl
  | succ n ih =>
    intro l
    simp only [List.replicate_succ, List.cons_append, debounceTrace,
      debounceStep_false th 0 hth, List.append_eq]
    rw [ih l]

theorem debounceTrace_true_run (th : Nat) :
    ∀ (k c : Nat) (l : List Bool), c + k = th → 0 < k →
      debounceTrace th c (List.replicate k true ++ l)
        = List.replicate (k - 1) false ++ true :: debounceTrace th 0 l := by
  intro k
  induction k with
  | zero => intro c l h hk; omega
  | succ n ih =>
    intro c l h hk
    simp only [List.replicate_succ, List.cons_append, debounceTrace,
      debounceStep_true, List.append_eq]
    by_cases hn : n = 0
    · subst hn
      rw [if_pos (show th ≤ c + 1 by omega)]
      simp
    · rw [if_neg (show ¬ th ≤ c + 1 by omega)]
      show false :: debounceTrace th (c + 1) (List.replicate n true ++ l)
        = List.replicate (n + 1 - 1) false ++ true :: debounceTrace th 0 l
      rw [ih (c + 1) l (by omega) (by omega)]
      have hrep : n + 1 - 1 = (n - 1) + 1 := by omega
      rw [hrep, List.replicate_succ]
      rfl

theorem debounceTrace_false_only (th : Nat) (hth : 0 < th) (b : Nat) :
    debounceTrace th 0 (List.replicate b false) = List.replicate b false := by
  have h := debounceTrace_false_run th hth b []
  simpa [debounceTrace] using h

theorem debounce_pattern_counts (th : Nat) (hth : 0 < th) (a b : Nat) :
    (debounceTrace th 0 (List.replicate a false ++ List.replicate th true ++
        List.replicate b false)).map (fun x => if x then 1 else 0)
      = List.replicate (a + (th - 1)) 0 ++ 1 :: List.replicate b 0 := by
  simp only [List.append_assoc]
  rw [debounceTrace_false_run th hth,
    debounceTrace_true_run th th 0 _ (by omega) hth,
    debounceTrace_false_only th hth]
  simp only [List.map_append, List.map_replicate, List.map_cons, reduceIte, Bool.false_eq_true, if_false]
  rw [List.replicate_add, List.append_assoc]

theorem debounce_pattern2_counts (th : Nat) (hth : 0 < th) (a b : Nat) :
    (debounceTrace th 0 (List.replicate a false ++
        List.replicate (2 * th) true ++ List.replicate b false)).map
        (fun x => if x then 1 else 0)
      = List.replicate (a + (th - 1)) 0 ++ 1 ::
          (List.replicate (th - 1) 0 ++ 1 :: List.replicate b 0) := by
  rw [two_mul, List.replicate_add]
  simp only [List.append_assoc]
  rw [debounceTrace_false_run th hth,
    debounceTrace_true_run th th 0 _ (by omega) hth,
    debounceTrace_true_run th th 0 _ (by omega) hth,
    debounceTrace_false_only th hth]
  simp only [List.map_append, List.map_replicate, List.map_cons, reduceIte, Bool.false_eq_true, if_false]
  rw [List.replicate_add, List.append_assoc]

theorem burst_gaze_th (session_id evidence_dir : String) (fps : ℚ) (a b : Nat) :
    (alertsPerFrame session_id evidence_dir fps Counters.zero
        (withIdx 0 (sigBurst gazeAwaySig a 3 b))).map
        (fun as => alert_type_count as "GAZE_AWAY")
      = List.replicate (a + 2) 0 ++ 1 :: List.replicate b 0 := by
  rw [alertsPerFrame_gaze,
    map_snd_withIdx (fun s => s.gaze_direction != "center") 0]
  have hsig : (sigBurst gazeAwaySig a 3 b).map
      (fun s => s.gaze_direction != "center")
      = List.replicate a false ++ List.replicate 3 true ++
        List.replicate b false := by
    simp +decide [sigBurst, neutralSig, gazeAwaySig, List.map_append,
      List.map_replicate]
  rw [hsig]
  have h := debounce_pattern_counts 3 (by norm_num) a b
  simpa using h

theorem burst_gaze_2th (session_id evidence_dir : String) (fps : ℚ)
    (a b : Nat) :
    (alertsPerFrame session_id evidence_dir fps Counters.zero
        (withIdx 0 (sigBurst gazeAwaySig a 6 b))).map
        (fun as => alert_type_count as "GAZE_AWAY")
      = List.replicate (a + 2) 0 ++ 1 ::
          (List.replicate 2 0 ++ 1 :: List.replicate b 0) := by
  rw [alertsPerFrame_gaze,
    map_snd_withIdx (fun s => s.gaze_direction != "center") 0]
  have hsig : (sigBurst gazeAwaySig a 6 b).map
      (fun s => s.gaze_direction != "center")
      = List.replicate a false ++ List.replicate 6 true ++
        List.replicate b false := by
    simp +decide [sigBurst, neutralSig, gazeAwaySig, List.map_append,
      List.map_replicate]
  rw [hsig]
  have h := debounce_pattern2_counts 3 (by norm_num) a b
  simpa using h

theorem burst_mouth_th (session_id evidence_dir : String) (fps : ℚ)
    (a b : Nat) :
    (alertsPerFrame session_id evidence_dir fps Counters.zero
        (withIdx 0 (sigBurst mouthMovingSig a 3 b))).map
        (fun as => alert_type_count as "MOUTH_MOVEMENT")
      = List.replicate (a + 2) 0 ++ 1 :: List.replicate b 0 := by
  rw [alertsPerFrame_mouth, map_snd_withIdx (fun s => s.mouth_moving) 0]
  have hsig : (sigBurst mouthMovingSig a 3 b).map (fun s => s.mouth_moving)
      = List.replicate a false ++ List.replicate 3 true ++
        List.replicate b false := by
    simp [sigBurst, neutralSig, mouthMovingSig, List.map_append,
      List.map_replicate]
  rw [hsig]
  have h := debounce_pattern_counts 3 (by norm_num) a b
  simpa using h

theorem burst_mouth_2th (session_id evidence_dir : String) (fps : ℚ)
    (a b : Nat) :
    (alertsPerFrame session_id evidence_dir fps Counters.zero
        (withIdx 0 (sigBurst mouthMovingSig a 6 b))).map
        (fun as => alert_type_count as "MOUTH_MOVEMENT")
      = List.replicate (a + 2) 0 ++ 1 ::
          (List.replicate 2 0 ++ 1 :: List.replicate b 0) := by
  rw [alertsPerFrame_mouth, map_snd_withIdx (fun s => s.mouth_moving) 0]
  have hsig : (sigBurst mouthMovingSig a 6 b).map (fun s => s.mouth_moving)
      = List.replicate a false ++ List.replicate 6 true ++
        List.replicate b false := by
    simp [sigBurst, neutralSig, mouthMovingSig, List.map_append,
      List.map_replicate]
  rw [hsig]
  have h := debounce_pattern2_counts 3 (by norm_num) a b
  simpa using h

theorem burst_mf_th (session_id evidence_dir : String) (fps : ℚ) (a b : Nat) :
    (alertsPerFrame session_id evidence_dir fps Counters.zero
        (withIdx 0 (sigBurst multiFaceSig a 5 b))).map
        (fun as => alert_type_count as "MULTI_FACE")
      = List.replicate (a + 4) 0 ++ 1 :: List.replicate b 0 := by
  rw [alertsPerFrame_mf, map_snd_withIdx (fun s => s.multiple_faces) 0]
  have hsig : (sigBurst multiFaceSig a 5 b).map (fun s => s.multiple_faces)
      = List.replicate a false ++ List.replicate 5 true ++
        List.replicate b false := by
    simp [sigBurst, neutralSig, multiFaceSig, List.map_append,
      List.map_replicate]
  rw [hsig]
  have h := debounce_pattern_counts 5 (by norm_num) a b
  simpa using h

theorem burst_mf_2th (session_id evidence_dir : String) (fps : ℚ)
    (a b : Nat) :
    (alertsPerFrame session_id evidence_dir fps Counters.zero
        (withIdx 0 (sigBurst multiFaceSig a 10 b))).map
        (fun as => alert_type_count as "MULTI_FACE")
      = List.replicate (a + 4) 0 ++ 1 ::
          (List.replicate 4 0 ++ 1 :: List.replicate b 0) := by
  rw [alertsPerFrame_mf, map_snd_withIdx (fun s => s.multiple_faces) 0]
  have hsig : (sigBurst multiFaceSig a 10 b).map (fun s => s.multiple_faces)
      = List.replicate a false ++ List.replicate 10 true ++
        List.replicate b false := by
    simp [sigBurst, neutralSig, multiFaceSig, List.map_append,
      List.map_replicate]
  rw [hsig]
  have h := debounce_pattern2_counts 5 (by norm_num) a b
  simpa using h

/-- Claim C5: for each debounced signal (gaze away, threshold 3; mouth
moving, threshold 3; multi-face, threshold 5) driven through the alert
machine from the initial counter state, a burst of exactly `threshold`
consecutive true frames (neutral before and after) fires exactly one alert of
the corresponding type, on the processed frame at which the counter reaches
the threshold (position `a + threshold - 1`); a burst of `2 x threshold`
consecutive true frames fires exactly two. -/
theorem C5_sustained_debounce (session_id evidence_dir : String) (fps : ℚ)
    (a b : Nat) :
    ((alertsPerFrame session_id evidence_dir fps Counters.zero
        (withIdx 0 (sigBurst gazeAwaySig a 3 b))).map
        (fun as => alert_type_count as "GAZE_AWAY")
      = List.replicate (a + 2) 0 ++ 1 :: List.replicate b 0)
    ∧ ((alertsPerFrame session_id evidence_dir fps Counters.zero
        (withIdx 0 (sigBurst gazeAwaySig a 6 b))).map
        (fun as => alert_type_count as "GAZE_AWAY")
      = List.replicate (a + 2) 0 ++ 1 ::
          (List.replicate 2 0 ++ 1 :: List.replicate b 0))
    ∧ ((alertsPerFrame session_id evidence_dir fps Counters.zero
        (withIdx 0 (sigBurst mouthMovingSig a 3 b))).map
        (fun as => alert_type_count as "MOUTH_MOVEMENT")
      = List.replicate (a + 2) 0 ++ 1 :: List.replicate b 0)
    ∧ ((alertsPerFrame session_id evidence_dir fps Counters.zero
        (withIdx 0 (sigBurst mouthMovingSig a 6 b))).map
        (fun as => alert_type_count as "MOUTH_MOVEMENT")
      = List.replicate (a + 2) 0 ++ 1 ::
          (List.replicate 2 0 ++ 1 :: List.replicate b 0))
    ∧ ((alertsPerFrame session_id evidence_dir fps Counters.zero
        (withIdx 0 (sigBurst multiFaceSig a 5 b))).map
        (fun as => alert_type_count as "MULTI_FACE")
      = List.replicate (a + 4) 0 ++ 1 :: List.replicate b 0)
    ∧ ((alertsPerFrame session_id evidence_dir fps Counters.zero
        (withIdx 0 (sigBurst multiFaceSig a 10 b))).map
        (fun as => alert_type_count as "MULTI_FACE")
      = List.replicate (a + 4) 0 ++ 1 ::
          (List.replicate 4 0 ++ 1 :: List.replicate b 0)) :=
  ⟨burst_gaze_th session_id evidence_dir fps a b,
    burst_gaze_2th session_id evidence_dir fps a b,
    burst_mouth_th session_id evidence_dir fps a b,
    burst_mouth_2th session_id evidence_dir fps a b,
    burst_mf_th session_id evidence_dir fps a b,
    burst_mf_2th session_id evidence_dir fps a b⟩

/-- Claim C7: FACE_MISSING and OBJECT_DETECTED are instantaneous.  On every
processed frame, `_generate_alerts` emits exactly one FACE_MISSING alert when
face presence is false (none otherwise) and exactly one OBJECT_DETECTED alert
per item of the submitted object list, independently of the debounce counter
state; in particular a frame with no face and one detected object yields
exactly one of each. -/
theorem C7_instantaneous_alerts (session_id : String) (frame_idx : Nat)
    (t : ℚ) (evidence_dir : String) (s : FrameSignals) (st : Counters) :
    alert_type_count
        (generate_alerts session_id frame_idx t evidence_dir s st).1
        "FACE_MISSING"
      = (if s.face_present then 0 else 1)
    ∧ alert_type_count
        (generate_alerts session_id frame_idx t evidence_dir s st).1
        "OBJECT_DETECTED"
      = s.object_list.length := by
  unfold generate_alerts alert_type_count
  constructor
  · by_cases hf : s.face_present = true <;>
      simp +decide [hf, List.countP_append, countP_ite_singleton,
        countP_ite_singleton', List.countP_map, Function.comp,
        List.countP_false]
  · by_cases hf : s.face_present = true <;>
      simp +decide [hf, List.countP_append, countP_ite_singleton,
        countP_ite_singleton', List.countP_map, Function.comp,
        List.countP_true]

/-- Claim C1: the verdict of a persisted session record follows first-match
precedence over the collected alerts and the overall score: CHEATING exactly
when a MULTI_FACE or OBJECT_DETECTED alert is present; otherwise SUSPICIOUS
exactly when the overall score is below 0.7 or more than 5 alerts were
collected; otherwise CLEAN. -/
theorem C1_verdict_first_match (alerts_list : List AlertEvent)
    (overall_score : ℚ) :
    (session_verdict alerts_list overall_score = "CHEATING" ↔
      (0 < alert_type_count alerts_list "MULTI_FACE" ∨
        0 < alert_type_count alerts_list "OBJECT_DETECTED"))
    ∧ (session_verdict alerts_list overall_score = "SUSPICIOUS" ↔
      (¬ (0 < alert_type_count alerts_list "MULTI_FACE" ∨
          0 < alert_type_count alerts_list "OBJECT_DETECTED")
        ∧ (overall_score < 7/10 ∨ 5 < alerts_list.length)))
    ∧ (session_verdict alerts_list overall_score = "CLEAN" ↔
      (¬ (0 < alert_type_count alerts_list "MULTI_FACE" ∨
          0 < alert_type_count alerts_list "OBJECT_DETECTED")
        ∧ ¬ (overall_score < 7/10 ∨ 5 < alerts_list.length))) := by
  unfold session_verdict
  split_ifs with h1 h2 <;>
    refine ⟨?_, ?_, ?_⟩ <;>
    simp_all +decide

theorem read_face_ok (e : Bool) (r : DetRes Bool) (h : r.isRaised = false) :
    ∃ b, read_face e r = .ok b := by
  cases e <;> cases r <;> simp_all [read_face, DetRes.isRaised]

theorem read_gaze_ok (e : Bool) (r : DetRes String) (h : r.isVal = true) :
    ∃ s, read_gaze e r = .ok s := by
  cases e <;> cases r <;> simp_all [read_gaze, DetRes.isVal]

theorem read_mouth_ok (e : Bool) (r : DetRes Bool) (h : r.isRaised = false) :
    ∃ b, read_mouth e r = .ok b := by
  cases e <;> cases r <;> simp_all [read_mouth, DetRes.isRaised]

theorem read_objects_ok (e : Bool) (p : Nat) (r : DetRes (List Obj))
    (h : r.isRaised = false) : ∃ l, read_objects e p r = .ok l := by
  unfold read_objects
  split
  · cases r <;> simp_all [DetRes.isRaised]
  · exact ⟨[], rfl⟩

theorem read_objects_skip (e : Bool) (p : Nat) (r : DetRes (List Obj))
    (h : p % OBJ_DETECT_EVERY ≠ 0) : read_objects e p r = .ok [] := by
  unfold read_objects
  rw [if_neg (by tauto)]

theorem read_mf_ok (e : Bool) (p : Nat) (lf : Int) (lm : Bool)
    (r : DetRes Int) (h : r.isRaised = false) :
    ∃ x, read_mf e p lf lm r = .ok x := by
  unfold read_mf
  split
  · cases r <;> simp_all [DetRes.isRaised]
  · exact ⟨(lf, lm), rfl⟩

theorem read_mf_skip (e : Bool) (p : Nat) (lf : Int) (lm : Bool)
    (r : DetRes Int) (h : p % MF_DETECT_EVERY ≠ 0) :
    read_mf e p lf lm r = .ok (lf, lm) := by
  unfold read_mf
  rw [if_neg (by tauto)]

theorem stepFrame_clean_ok (cfg : DetConfig) (p : Nat) (lf : Int) (lm : Bool)
    (fd : FrameData) (h : cleanFrame fd = true) :
    ∃ sig lf' lm', stepFrame cfg p lf lm fd = .ok (sig, lf', lm') := by
  unfold cleanFrame at h
  simp only [Bool.and_eq_true, Bool.not_eq_true'] at h
  obtain ⟨⟨⟨⟨h1, h2⟩, h3⟩, h4⟩, h5⟩ := h
  obtain ⟨b, hb⟩ := read_face_ok cfg.face_enabled fd.face h1
  obtain ⟨s, hs⟩ := read_gaze_ok cfg.eyes_enabled fd.gaze h2
  obtain ⟨m, hm⟩ := read_mouth_ok cfg.mouth_enabled fd.mouth h3
  obtain ⟨ol, ho⟩ := read_objects_ok cfg.objects_enabled p fd.objects h5
  obtain ⟨⟨lf', lm'⟩, hx⟩ := read_mf_ok cfg.multi_face_enabled p lf lm
    fd.mf h4
  refine ⟨⟨b, s, m, lm', lf', ol⟩, lf', lm', ?_⟩
  unfold stepFrame
  rw [hb, hs, hm, ho, hx]

theorem stepFrame_ok_inv (cfg : DetConfig) (p : Nat) (lf : Int) (lm : Bool)
    (fd : FrameData) (sig : FrameSignals) (lf' : Int) (lm' : Bool)
    (h : stepFrame cfg p lf lm fd = .ok (sig, lf', lm')) :
    sig.multiple_faces = lm' ∧ sig.num_faces = lf'
    ∧ (p % MF_DETECT_EVERY ≠ 0 → lf' = lf ∧ lm' = lm)
    ∧ (p % OBJ_DETECT_EVERY ≠ 0 → sig.object_list = []) := by
  unfold stepFrame at h
  cases hb : read_face cfg.face_enabled fd.face <;> rw [hb] at h
  case error => exact absurd h (by simp)
  cases hs : read_gaze cfg.eyes_enabled fd.gaze <;> rw [hs] at h
  case error => exact absurd h (by simp)
  cases hm : read_mouth cfg.mouth_enabled fd.mouth <;> rw [hm] at h
  case error => exact absurd h (by simp)
  cases ho : read_objects cfg.objects_enabled p fd.objects <;> rw [ho] at h
  case error => exact absurd h (by simp)
  cases hx : read_mf cfg.multi_face_enabled p lf lm fd.mf <;> rw [hx] at h
  case error => exact absurd h (by simp)
  case ok x =>
    obtain ⟨lf2, lm2⟩ := x
    simp only [Except.ok.injEq, Prod.mk.injEq] at h
    obtain ⟨hsig, hlf, hlm⟩ := h
    subst hsig hlf hlm
    refine ⟨rfl, rfl, ?_, ?_⟩
    · intro hp
      have := read_mf_skip cfg.multi_face_enabled p lf lm fd.mf hp
      rw [this] at hx
      simp only [Except.ok.injEq, Prod.mk.injEq] at hx
      exact ⟨hx.1.symm, hx.2.symm⟩
    · intro hp
      have := read_objects_skip cfg.objects_enabled p fd.objects hp
      rw [this] at ho
      simp only [Except.ok.injEq] at ho
      simp [ho.symm]

theorem videoLoop_submitted_fst (S : Nat) (cfg : DetConfig)
    (sid ed : String) (fps : ℚ) :
    ∀ (frames : List FrameData) (idx p : Nat) (lf : Int) (lm : Bool)
      (st : Counters), (∀ fd ∈ frames, cleanFrame fd = true) →
      (videoLoop S cfg sid ed fps frames idx p lf lm st).submitted.map
          Prod.fst
        = (List.range' idx frames.length).filter (fun i => i % S == 0) := by
  intro frames
  induction frames with
  | nil => intro idx p lf lm st h; rfl
  | cons fd rest ih =>
    intro idx p lf lm st h
    have hfd := h fd (List.mem_cons_self fd rest)
    have hrest : ∀ x ∈ rest, cleanFrame x = true :=
      fun x hx => h x (List.mem_cons_of_mem fd hx)
    unfold videoLoop
    by_cases hidx : idx % S = 0
    · rw [if_neg (show ¬ idx % S ≠ 0 from fun hc => hc hidx)]
      obtain ⟨sig, lf', lm', hstep⟩ := stepFrame_clean_ok cfg p lf lm fd hfd
      rw [hstep]
      show ((idx, sig) :: (videoLoop S cfg sid ed fps rest (idx + 1) (p + 1)
          lf' lm' (generate_alerts sid idx ((idx : ℚ) / fps) ed sig
            st).2).submitted).map Prod.fst = _
      rw [List.map_cons, ih (idx + 1) (p + 1) lf' lm' _ hrest]
      have hrange : List.range' idx (rest.length + 1)
          = idx :: List.range' (idx + 1) rest.length := rfl
      rw [List.length_cons, hrange, List.filter_cons,
        if_pos (show (idx % S == 0) = true by simpa using hidx)]
    · rw [if_pos hidx]
      rw [ih (idx + 1) p lf lm st hrest]
      have hrange : List.range' idx (rest.length + 1)
          = idx :: List.range' (idx + 1) rest.length := rfl
      rw [List.length_cons, hrange, List.filter_cons,
        if_neg (show ¬ (idx % S == 0) = true by simpa using hidx)]

theorem count_multiples (S : Nat) (hS : 0 < S) :
    ∀ F : Nat, ((List.range F).filter (fun i => i % S == 0)).length
      = (F + S - 1) / S := by
  intro F
  induction F with
  | zero =>
    simp [Nat.div_eq_of_lt (show S - 1 < S by omega)]
  | succ n ih =>
    rw [List.range_succ, List.filter_append, List.length_append, ih]
    have hrw : n + 1 + S - 1 = (n + S - 1) + 1 := by omega
    rw [hrw, Nat.succ_div]
    have hdvd : S ∣ n + S - 1 + 1 ↔ S ∣ n := by
      have : n + S - 1 + 1 = n + S := by omega
      rw [this]
      exact Nat.dvd_add_self_right
    by_cases hn : n % S = 0
    · rw [if_pos (hdvd.mpr (Nat.dvd_iff_mod_eq_zero.mpr hn))]
      simp [hn]
    · rw [if_neg (fun hc => hn (Nat.dvd_iff_mod_eq_zero.mp
        (hdvd.mp hc)))]
      simp [hn]

/-- Claim C6: for every stride `S` and every video whose decodable raw frames
all evaluate cleanly, the frames submitted to alert evaluation are exactly the
raw frames whose index is a multiple of `S` below the raw frame count `F`, and
their number is `⌈F / S⌉ = (F + S - 1) / S`. -/
theorem C6_stride_sampling (S : Nat) (cfg : DetConfig) (sid ed : String)
    (fps : ℚ) (frames : List FrameData) (lf : Int) (lm : Bool) (st : Counters)
    (hS : 0 < S) (hclean : ∀ fd ∈ frames, cleanFrame fd = true) :
    ((videoLoop S cfg sid ed fps frames 0 0 lf lm st).submitted.map Prod.fst
      = (List.range frames.length).filter (fun i => i % S == 0))
    ∧ (videoLoop S cfg sid ed fps frames 0 0 lf lm st).submitted.length
      = (frames.length + S - 1) / S
    ∧ ∀ i : Nat,
        (i ∈ (videoLoop S cfg sid ed fps frames 0 0 lf lm st).submitted.map
          Prod.fst ↔ (S ∣ i ∧ i < frames.length)) := by
  have h1 := videoLoop_submitted_fst S cfg sid ed fps frames 0 0 lf lm st
    hclean
  rw [← List.range_eq_range'] at h1
  refine ⟨h1, ?_, ?_⟩
  · have h2 : (videoLoop S cfg sid ed fps frames 0 0 lf lm
        st).submitted.length
        = ((videoLoop S cfg sid ed fps frames 0 0 lf lm st).submitted.map
          Prod.fst).length := (List.length_map _ _).symm
    rw [h2, h1, count_multiples S hS]
  · intro i
    rw [h1]
    simp only [List.mem_filter, List.mem_range, beq_iff_eq]
    constructor
    · rintro ⟨hlt, hmod⟩
      exact ⟨Nat.dvd_iff_mod_eq_zero.mpr hmod, hlt⟩
    · rintro ⟨hdvd, hlt⟩
      exact ⟨hlt, Nat.dvd_iff_mod_eq_zero.mp hdvd⟩

/-- Witness for C6 at stride 5 (the source's `FRAME_STRIDE`) on a 7-frame
video: processed raw indices `[0, 5]`, count `⌈7/5⌉ = 2`. -/
theorem C6_stride_sampling_witness :
    0 < 5 ∧ (∀ fd ∈ frames7, cleanFrame fd = true) ∧
    (((videoLoop 5 cfgAll "sid" "ed" 30 frames7 0 0 1 false
        Counters.zero).submitted.map Prod.fst
      = (List.range frames7.length).filter (fun i => i % 5 == 0))
    ∧ (videoLoop 5 cfgAll "sid" "ed" 30 frames7 0 0 1 false
        Counters.zero).submitted.length = (frames7.length + 5 - 1) / 5
    ∧ ∀ i : Nat,
        (i ∈ (videoLoop 5 cfgAll "sid" "ed" 30 frames7 0 0 1 false
          Counters.zero).submitted.map Prod.fst
          ↔ (5 ∣ i ∧ i < frames7.length))) :=
  ⟨by decide, by decide,
    C6_stride_sampling 5 cfgAll "sid" "ed" 30 frames7 1 false Counters.zero
      (by decide) (by decide)⟩

theorem videoLoop_obj_cadence (S : Nat) (cfg : DetConfig) (sid ed : String)
    (fps : ℚ) :
    ∀ (frames : List FrameData) (idx p : Nat) (lf : Int) (lm : Bool)
      (st : Counters) (j : Nat) (iv : Nat) (sig : FrameSignals),
      (videoLoop S cfg sid ed fps frames idx p lf lm st).submitted.get? j
        = some (iv, sig) →
      (p + j) % OBJ_DETECT_EVERY ≠ 0 → sig.object_list = [] := by
  intro frames
  induction frames with
  | nil => intro idx p lf lm st j iv sig h hp; simp [videoLoop] at h
  | cons fd rest ih =>
    intro idx p lf lm st j iv sig h hp
    unfold videoLoop at h
    by_cases hidx : idx % S ≠ 0
    · rw [if_pos hidx] at h
      exact ih (idx + 1) p lf lm st j iv sig h hp
    · rw [if_neg hidx] at h
      cases hstep : stepFrame cfg p lf lm fd with
      | error e => rw [hstep] at h; simp at h
      | ok x =>
        obtain ⟨sig', lf', lm'⟩ := x
        rw [hstep] at h
        cases j with
        | zero =>
          simp only [List.get?_cons_zero, Option.some.injEq,
            Prod.mk.injEq] at h
          have hinv := stepFrame_ok_inv cfg p lf lm fd sig' lf' lm' hstep
          rw [← h.2]
          exact hinv.2.2.2 (by simpa using hp)
        | succ k =>
          simp only [List.get?_cons_succ] at h
          have := ih (idx + 1) (p + 1) lf' lm' _ k iv sig h
          apply this
          have harith : p + 1 + k = p + (k + 1) := by omega
          rw [harith]
          exact hp

theorem videoLoop_mf_head (S : Nat) (cfg : DetConfig) (sid ed : String)
    (fps : ℚ) :
    ∀ (frames : List FrameData) (idx p : Nat) (lf : Int) (lm : Bool)
      (st : Counters) (iv : Nat) (sig : FrameSignals),
      (videoLoop S cfg sid ed fps frames idx p lf lm st).submitted.get? 0
        = some (iv, sig) →
      p % MF_DETECT_EVERY ≠ 0 →
      sig.multiple_faces = lm ∧ sig.num_faces = lf := by
  intro frames
  induction frames with
  | nil => intro idx p lf lm st iv sig h hp; simp [videoLoop] at h
  | cons fd rest ih =>
    intro idx p lf lm st iv sig h hp
    unfold videoLoop at h
    by_cases hidx : idx % S ≠ 0
    · rw [if_pos hidx] at h
      exact ih (idx + 1) p lf lm st iv sig h hp
    · rw [if_neg hidx] at h
      cases hstep : stepFrame cfg p lf lm fd with
      | error e => rw [hstep] at h; simp at h
      | ok x =>
        obtain ⟨sig', lf', lm'⟩ := x
        rw [hstep] at h
        simp only [List.get?_cons_zero, Option.some.injEq,
          Prod.mk.injEq] at h
        have hinv := stepFrame_ok_inv cfg p lf lm fd sig' lf' lm' hstep
        obtain ⟨hlf, hlm⟩ := hinv.2.2.1 hp
        rw [← h.2]
        exact ⟨hinv.1.trans hlm, hinv.2.1.trans hlf⟩

theorem videoLoop_mf_holdover (S : Nat) (cfg : DetConfig) (sid ed : String)
    (fps : ℚ) :
    ∀ (frames : List FrameData) (idx p : Nat) (lf : Int) (lm : Bool)
      (st : Counters) (j : Nat) (iv jv : Nat) (sx sy : FrameSignals),
      (videoLoop S cfg sid ed fps frames idx p lf lm st).submitted.get? j
        = some (iv, sx) →
      (videoLoop S cfg sid ed fps frames idx p lf lm st).submitted.get?
          (j + 1) = some (jv, sy) →
      (p + j + 1) % MF_DETECT_EVERY ≠ 0 →
      sy.multiple_faces = sx.multiple_faces
        ∧ sy.num_faces = sx.num_faces := by
  intro frames
  induction frames with
  | nil => intro idx p lf lm st j iv jv sx sy h0 h1 hp; simp [videoLoop] at h0
  | cons fd rest ih =>
    intro idx p lf lm st j iv jv sx sy h0 h1 hp
    unfold videoLoop at h0 h1
    by_cases hidx : idx % S ≠ 0
    · rw [if_pos hidx] at h0 h1
      exact ih (idx + 1) p lf lm st j iv jv sx sy h0 h1 hp
    · rw [if_neg hidx] at h0 h1
      cases hstep : stepFrame cfg p lf lm fd with
      | error e => rw [hstep] at h0; simp at h0
      | ok x =>
        obtain ⟨sig', lf', lm'⟩ := x
        rw [hstep] at h0 h1
        cases j with
        | zero =>
          simp only [List.get?_cons_zero, Option.some.injEq,
            Prod.mk.injEq] at h0
          simp only [List.get?_cons_succ] at h1
          have hinv := stepFrame_ok_inv cfg p lf lm fd sig' lf' lm' hstep
          have hhead := videoLoop_mf_head S cfg sid ed fps rest (idx + 1)
            (p + 1) lf' lm' _ jv sy h1 (by simpa using hp)
          rw [← h0.2]
          exact ⟨hhead.1.trans hinv.1.symm, hhead.2.trans hinv.2.1.symm⟩
        | succ k =>
          simp only [List.get?_cons_succ] at h0 h1
          apply ih (idx + 1) (p + 1) lf' lm' _ k iv jv sx sy h0 h1
          have harith : p + 1 + k + 1 = p + (k + 1) + 1 := by omega
          rw [harith]
          exact hp

theorem analyze_video_submitted (env : AnalyzerEnv) (video : VideoSource)
    (ap : Option String) (sid : Option String) (now : String) (cs : Counters)
    (h : video.opens = true) :
    (analyze_video env video ap sid now cs).submitted
      = (videoLoop FRAME_STRIDE env.cfg
          (sid.getD (generate_session_id video.stem now))
          (evidence_root env ++ "/" ++
            sid.getD (generate_session_id video.stem now))
          (if video.fps0 = 0 then 30 else video.fps0)
          video.frames 0 0 1 false cs).submitted := by
  unfold analyze_video
  rw [if_neg (show ¬¬(video.opens = true) from fun hc => hc h)]
  simp only []
  split <;> split <;> rfl

/-- Claim C4 counterexample: with the object detector returning `["phone"]`
on every call, the processed frame at raw index 5 (processed index 1, off the
10-frame cadence) is submitted with an empty object list — the result last
computed at processed index 0 is not held over — and consequently no
OBJECT_DETECTED alert fires there. -/
theorem C4_counterexample_objects_not_held :
    (analyze_video envObj vidObj none (some "s3") "t"
        Counters.zero).submitted.map (fun x => (x.1, x.2.object_list))
      = [(0, ["phone"]), (5, [])]
    ∧ (analyze_video envObj vidObj none (some "s3") "t"
        Counters.zero).alerts.map (fun a => (a.type, a.frame_index))
      = [("OBJECT_DETECTED", 0)] := by decide

/-- Claim C4 as amended: multi-face detection has last-known-value semantics
(on every processed frame off the 4-frame cadence the submitted multi-face
flag and face count equal the previous processed frame's), but object
detection does not: on every processed frame off the 10-frame cadence the
submitted object list is empty, because `last_objects` is reassigned `[]`
before the cadence test. -/
theorem C4_amended_holdover (env : AnalyzerEnv) (video : VideoSource)
    (ap : Option String) (sid : Option String) (now : String) (cs : Counters)
    (h : video.opens = true) :
    (∀ (j iv : Nat) (sig : FrameSignals),
      (analyze_video env video ap sid now cs).submitted.get? j
        = some (iv, sig) →
      j % OBJ_DETECT_EVERY ≠ 0 → sig.object_list = [])
    ∧ (∀ (j iv jv : Nat) (sx sy : FrameSignals),
      (analyze_video env video ap sid now cs).submitted.get? j
        = some (iv, sx) →
      (analyze_video env video ap sid now cs).submitted.get? (j + 1)
        = some (jv, sy) →
      (j + 1) % MF_DETECT_EVERY ≠ 0 →
      sy.multiple_faces = sx.multiple_faces
        ∧ sy.num_faces = sx.num_faces) := by
  rw [analyze_video_submitted env video ap sid now cs h]
  constructor
  · intro j iv sig hg hj
    exact videoLoop_obj_cadence FRAME_STRIDE env.cfg _ _ _ video.frames
      0 0 1 false cs j iv sig hg (by simpa using hj)
  · intro j iv jv sx sy h0 h1 hj
    exact videoLoop_mf_holdover FRAME_STRIDE env.cfg _ _ _ video.frames
      0 0 1 false cs j iv jv sx sy h0 h1 (by simpa using hj)

/-- Witness for the amended C4 on a concrete 6-frame video. -/
theorem C4_amended_holdover_witness :
    vidObj.opens = true ∧
    ((∀ (j iv : Nat) (sig : FrameSignals),
      (analyze_video envObj vidObj none (some "s3") "t"
          Counters.zero).submitted.get? j = some (iv, sig) →
      j % OBJ_DETECT_EVERY ≠ 0 → sig.object_list = [])
    ∧ (∀ (j iv jv : Nat) (sx sy : FrameSignals),
      (analyze_video envObj vidObj none (some "s3") "t"
          Counters.zero).submitted.get? j = some (iv, sx) →
      (analyze_video envObj vidObj none (some "s3") "t"
          Counters.zero).submitted.get? (j + 1) = some (jv, sy) →
      (j + 1) % MF_DETECT_EVERY ≠ 0 →
      sy.multiple_faces = sx.multiple_faces
        ∧ sy.num_faces = sx.num_faces)) :=
  ⟨rfl, C4_amended_holdover envObj vidObj none (some "s3") "t"
    Counters.zero rfl⟩

/-- Claim C3 evaluated on the code: the debounce counters are NOT reset at
the start of `analyze_video`.  After analyzing `vidA` the instance's gaze
counter is 2; feeding that instance state into the analysis of `vidB` fires a
GAZE_AWAY alert on the very first processed frame of the second session
(counter 2 + 1 reaches the threshold 3), which is impossible when the
counters start at zero as the claim states. -/
theorem C3_counter_leak_eval :
    (analyze_video envEyes vidA none (some "s1") "t"
        Counters.zero).counters_out = ⟨2, 0, 0⟩
    ∧ ((analyze_video envEyes vidB none (some "s2") "t"
        (analyze_video envEyes vidA none (some "s1") "t"
          Counters.zero).counters_out).alerts.map
        (fun a => (a.type, a.frame_index))) = [("GAZE_AWAY", 0)]
    ∧ ((analyze_video envEyes vidB none (some "s2") "t"
        Counters.zero).alerts.map (fun a => (a.type, a.frame_index))) = [] :=
  by decide

/-- Claim C2 counterexample: a face-detector exception on a processed frame is
not caught — `analyze_video` aborts with the propagated detector error
instead of substituting the neutral default and continuing. -/
theorem C2_counterexample_raise_aborts :
    (analyze_video envAll vidRaise none (some "s") "t" Counters.zero).result
      = .error .detectorError
    ∧ (analyze_video envAll vidRaise none (some "s") "t"
        Counters.zero).record = none := by
  constructor <;> rfl

theorem stepFrame_face_raised (cfg : DetConfig) (p : Nat) (lf : Int)
    (lm : Bool) (fd : FrameData) (he : cfg.face_enabled = true)
    (hr : fd.face = .raised) :
    stepFrame cfg p lf lm fd = .error .detectorError := by
  have hrf : read_face cfg.face_enabled fd.face = .error .detectorError := by
    rw [he, hr]
    rfl
  unfold stepFrame
  rw [hrf]

theorem videoLoop_first_raised (S : Nat) (cfg : DetConfig) (sid ed : String)
    (fps : ℚ) (fd : FrameData) (rest : List FrameData) (lf : Int) (lm : Bool)
    (st : Counters)
    (hstep : stepFrame cfg 0 lf lm fd = .error .detectorError) :
    videoLoop S cfg sid ed fps (fd :: rest) 0 0 lf lm st
      = ⟨[], [], st, 0, true⟩ := by
  unfold videoLoop
  rw [if_neg (show ¬(0 % S ≠ 0) from fun hc => hc (Nat.zero_mod S))]
  rw [hstep]

/-- Claim C2 as amended: an unexpected-type detector result is replaced by a
neutral default only for the multi-face detector (face count 1, not multiple)
and the object detector (empty list); wrong-typed face and mouth values act
through their truthiness, a wrong-typed gaze result and any detector
exception propagate — a raised face detector aborts the whole session. -/
theorem C2_amended_neutral_defaults :
    (∀ (cfg : DetConfig) (lf : Int) (lm : Bool) (fb mm t1 t2 : Bool)
        (gd : String),
      cfg.face_enabled = true → cfg.eyes_enabled = true →
      cfg.mouth_enabled = true → cfg.objects_enabled = true →
      cfg.multi_face_enabled = true →
      stepFrame cfg 0 lf lm ⟨.val fb, .val gd, .val mm, .wrongType t1,
        .wrongType t2⟩ = .ok (⟨fb, gd, mm, false, 1, []⟩, 1, false))
    ∧ (∀ (cfg : DetConfig) (p : Nat) (lf : Int) (lm : Bool) (fd : FrameData),
      cfg.face_enabled = true → fd.face = .raised →
      stepFrame cfg p lf lm fd = .error .detectorError)
    ∧ (∀ (env : AnalyzerEnv) (video : VideoSource) (ap sid : Option String)
        (now : String) (cs : Counters) (fd : FrameData)
        (rest : List FrameData),
      video.opens = true → video.frames = fd :: rest →
      env.cfg.face_enabled = true → fd.face = .raised →
      (analyze_video env video ap sid now cs).result
        = .error .detectorError) := by
  refine ⟨?_, ?_, ?_⟩
  · intro cfg lf lm fb mm t1 t2 gd h1 h2 h3 h4 h5
    simp +decide [stepFrame, read_face, read_gaze, read_mouth, read_objects,
      read_mf, h1, h2, h3, h4, h5, OBJ_DETECT_EVERY, MF_DETECT_EVERY]
  · intro cfg p lf lm fd he hr
    exact stepFrame_face_raised cfg p lf lm fd he hr
  · intro env video ap sid now cs fd rest hopen hframes hface hraised
    unfold analyze_video
    rw [if_neg (fun hc => hc hopen)]
    simp only []
    rw [hframes]
    rw [videoLoop_first_raised FRAME_STRIDE env.cfg _ _ _ fd rest 1 false cs
      (stepFrame_face_raised env.cfg 0 1 false fd hface hraised)]
    rfl

/-- Witness for the amended C2: wrong-typed multi-face and object results on a
cadence frame coerce to the neutral pair (1 face, empty list); a raised face
detector aborts both the frame step and the whole session. -/
theorem C2_amended_neutral_defaults_witness :
    (stepFrame cfgAll 0 1 false ⟨.val true, .val "center", .val false,
        .wrongType true, .wrongType false⟩
      = .ok (⟨true, "center", false, false, 1, []⟩, 1, false))
    ∧ stepFrame cfgAll 0 1 false raisedFaceFD = .error .detectorError
    ∧ (analyze_video envAll vidRaise none (some "s") "t"
        Counters.zero).result = .error .detectorError :=
  ⟨C2_amended_neutral_defaults.1 cfgAll 1 false true false true false
      "center" rfl rfl rfl rfl rfl,
    C2_amended_neutral_defaults.2.1 cfgAll 0 1 false raisedFaceFD rfl rfl,
    C2_amended_neutral_defaults.2.2 envAll vidRaise none (some "s") "t"
      Counters.zero raisedFaceFD [] rfl rfl rfl rfl⟩

/-- Claim C8: when the video cannot be opened, `analyze_video` propagates the
`Cannot open video` error to its caller; no evidence image and no session
JSON is written, and no session record content exists. -/
theorem C8_unopenable_no_record (env : AnalyzerEnv) (video : VideoSource)
    (ap sid : Option String) (now : String) (cs : Counters)
    (h : video.opens = false) :
    (analyze_video env video ap sid now cs).result
      = .error (.cannotOpen video.path)
    ∧ (analyze_video env video ap sid now cs).files_written = []
    ∧ (analyze_video env video ap sid now cs).record = none := by
  unfold analyze_video
  rw [if_pos (show ¬(video.opens = true) by simp [h])]
  exact ⟨rfl, rfl, rfl⟩

/-- Witness for C8 on a concrete unopenable video. -/
theorem C8_unopenable_no_record_witness :
    vidBad.opens = false ∧
    ((analyze_video envEyes vidBad none (some "s") "t" Counters.zero).result
      = .error (.cannotOpen vidBad.path)
    ∧ (analyze_video envEyes vidBad none (some "s") "t"
        Counters.zero).files_written = []
    ∧ (analyze_video envEyes vidBad none (some "s") "t"
        Counters.zero).record = none) :=
  ⟨rfl, C8_unopenable_no_record envEyes vidBad none (some "s") "t"
    Counters.zero rfl⟩

/-- Claim C10: on an unopenable video the per-session filesystem state is
created before the failure: the session id is derived from the video stem and
the clock when none is supplied, the per-session evidence directory is
created, and it stays empty (no file is written) while the open error
propagates. -/
theorem C10_evidence_dir_on_failure (env : AnalyzerEnv) (video : VideoSource)
    (ap : Option String) (now : String) (cs : Counters)
    (h : video.opens = false) :
    (analyze_video env video ap none now cs).dirs_created
      = [evidence_root env ++ "/" ++ generate_session_id video.stem now]
    ∧ (analyze_video env video ap none now cs).files_written = []
    ∧ (analyze_video env video ap none now cs).result
      = .error (.cannotOpen video.path) := by
  unfold analyze_video
  rw [if_pos (show ¬(video.opens = true) by simp [h])]
  exact ⟨rfl, rfl, rfl⟩

/-- Witness for C10 on a concrete unopenable video with a derived session
id. -/
theorem C10_evidence_dir_on_failure_witness :
    vidBad2.opens = false ∧
    ((analyze_video envAll vidBad2 none none "20250101" Counters.zero).dirs_created
      = [evidence_root envAll ++ "/" ++
          generate_session_id vidBad2.stem "20250101"]
    ∧ (analyze_video envAll vidBad2 none none "20250101"
        Counters.zero).files_written = []
    ∧ (analyze_video envAll vidBad2 none none "20250101" Counters.zero).result
      = .error (.cannotOpen vidBad2.path)) :=
  ⟨rfl, C10_evidence_dir_on_failure envAll vidBad2 none "20250101"
    Counters.zero rfl⟩

theorem digitChar_toNat (d : Nat) (h : d < 10) :
    (Nat.digitChar d).toNat = 48 + d := by
  interval_cases d <;> rfl

theorem digitChar_inj (d e : Nat) (hd : d < 10) (he : e < 10)
    (h : Nat.digitChar d = Nat.digitChar e) : d = e := by
  have h2 := congrArg Char.toNat h
  rw [digitChar_toNat d hd, digitChar_toNat e he] at h2
  omega

theorem digitChar_isDigit (d : Nat) (h : d < 10) :
    (Nat.digitChar d).isDigit = true := by
  interval_cases d <;> decide

theorem map_digitChar_inj :
    ∀ (xs ys : List Nat), (∀ d ∈ xs, d < 10) → (∀ e ∈ ys, e < 10) →
      xs.map Nat.digitChar = ys.map Nat.digitChar → xs = ys := by
  intro xs
  induction xs with
  | nil =>
    intro ys _ _ h
    cases ys with
    | nil => rfl
    | cons y ys => simp at h
  | cons x xs ih =>
    intro ys hx hy h
    cases ys with
    | nil => simp at h
    | cons y ys =>
      simp only [List.map_cons, List.cons.injEq] at h
      have hxy : x = y := digitChar_inj x y
        (hx x (List.mem_cons_self x xs)) (hy y (List.mem_cons_self y ys)) h.1
      rw [hxy, ih ys (fun d hd => hx d (List.mem_cons_of_mem x hd))
        (fun e he => hy e (List.mem_cons_of_mem y he)) h.2]

theorem decChars_inj (m n : Nat) (h : decChars m = decChars n) : m = n := by
  unfold decChars at h
  by_cases hm : m = 0 <;> by_cases hn : n = 0
  · omega
  · rw [if_pos hm, if_neg hn] at h
    have h2 : (Nat.digits 10 n).map Nat.digitChar = ['0'] := by
      have := congrArg List.reverse h
      simpa using this.symm
    have h3 : Nat.digits 10 n = [0] :=
      map_digitChar_inj (Nat.digits 10 n) [0]
        (fun d hd => Nat.digits_lt_base (by norm_num) hd)
        (by intro e he; simp at he; omega) (by simpa using h2)
    have h4 := Nat.ofDigits_digits 10 n
    rw [h3] at h4
    simp [Nat.ofDigits] at h4
    omega
  · rw [if_neg hm, if_pos hn] at h
    have h2 : (Nat.digits 10 m).map Nat.digitChar = ['0'] := by
      have := congrArg List.reverse h
      simpa using this
    have h3 : Nat.digits 10 m = [0] :=
      map_digitChar_inj (Nat.digits 10 m) [0]
        (fun d hd => Nat.digits_lt_base (by norm_num) hd)
        (by intro e he; simp at he; omega) (by simpa using h2)
    have h4 := Nat.ofDigits_digits 10 m
    rw [h3] at h4
    simp [Nat.ofDigits] at h4
    omega
  · rw [if_neg hm, if_neg hn] at h
    have h2 := List.reverse_injective h
    have h3 := map_digitChar_inj (Nat.digits 10 m) (Nat.digits 10 n)
      (fun d hd => Nat.digits_lt_base (by norm_num) hd)
      (fun e he => Nat.digits_lt_base (by norm_num) he) h2
    have h4 := Nat.ofDigits_digits 10 m
    have h5 := Nat.ofDigits_digits 10 n
    rw [h3] at h4
    rw [h5] at h4
    exact h4.symm

theorem decChars_isDigit (n : Nat) : ∀ c ∈ decChars n, c.isDigit = true := by
  intro c hc
  unfold decChars at hc
  by_cases hn : n = 0
  · rw [if_pos hn] at hc
    simp at hc
    rw [hc]
    decide
  · rw [if_neg hn] at hc
    rw [List.mem_reverse] at hc
    obtain ⟨d, hd, rfl⟩ := List.mem_map.mp hc
    exact digitChar_isDigit d (Nat.digits_lt_base (by norm_num) hd)

theorem takeWhile_middle (p : Char → Bool) :
    ∀ (xs : List Char) (y : Char) (ys : List Char),
      (∀ x ∈ xs, p x = true) → p y = false →
      (xs ++ y :: ys).takeWhile p = xs := by
  intro xs
  induction xs with
  | nil =>
    intro y ys _ hy
    simp [List.takeWhile, hy]
  | cons x xs ih =>
    intro y ys hx hy
    have hpx : p x = true := hx x (List.mem_cons_self x xs)
    simp only [List.cons_append, List.takeWhile, hpx, List.append_eq]
    rw [ih y ys (fun z hz => hx z (List.mem_cons_of_mem x hz)) hy]

theorem data_decRepr (n : Nat) : (decRepr n).data = decChars n := rfl

theorem save_evidence_inj (ed t1 t2 : String) (i1 i2 : Nat)
    (h : save_evidence ed t1 i1 = save_evidence ed t2 i2) :
    t1 = t2 ∧ i1 = i2 := by
  have hdata := congrArg String.data h
  simp only [save_evidence, String.data_append, data_decRepr,
    List.append_assoc] at hdata
  have h1 := List.append_cancel_left hdata
  have h2 := List.append_cancel_left h1
  have h3 := congrArg List.reverse h2
  simp only [List.reverse_append, List.append_assoc] at h3
  have hjpg : (".jpg".data).reverse = ['g', 'p', 'j', '.'] := rfl
  have hund : ("_".data).reverse = ['_'] := rfl
  rw [hjpg, hund] at h3
  have h4 := congrArg (List.drop 4) h3
  simp only [List.singleton_append, List.cons_append, List.drop] at h4
  simp only [List.append_eq, List.nil_append] at h4
  have htk := congrArg (List.takeWhile Char.isDigit) h4
  rw [takeWhile_middle Char.isDigit ((decChars i1).reverse) '_'
      (t1.data.reverse)
      (fun x hx => decChars_isDigit i1 x (List.mem_reverse.mp hx))
      (by decide),
    takeWhile_middle Char.isDigit ((decChars i2).reverse) '_'
      (t2.data.reverse)
      (fun x hx => decChars_isDigit i2 x (List.mem_reverse.mp hx))
      (by decide)] at htk
  have hi : i1 = i2 := decChars_inj i1 i2 (List.reverse_injective htk)
  rw [htk] at h4
  have h5 := List.append_cancel_left h4
  simp only [List.cons.injEq, true_and] at h5
  have ht : t1.data = t2.data := List.reverse_injective h5
  refine ⟨?_, hi⟩
  cases t1
  cases t2
  cases ht
  rfl

theorem mem_ite_singleton {c : Prop} [Decidable c] {x a : AlertEvent}
    (h : a ∈ (if c then [x] else [])) : a = x := by
  split at h
  · simpa using h
  · simp at h

theorem mem_ite_singleton' {c : Prop} [Decidable c] {x a : AlertEvent}
    (h : a ∈ (if c then [] else [x])) : a = x := by
  split at h
  · simp at h
  · simpa using h

theorem generate_alerts_wf (session_id : String) (frame_idx : Nat) (t : ℚ)
    (evidence_dir : String) (s : FrameSignals) (st : Counters) :
    ∀ a ∈ (generate_alerts session_id frame_idx t evidence_dir s st).1,
      a.frame_index = frame_idx ∧ alertPathWF evidence_dir a := by
  intro a ha
  unfold generate_alerts at ha
  simp only [List.mem_append] at ha
  rcases ha with ((((h | h) | h) | h) | h)
  · rw [mem_ite_singleton' h]
    exact ⟨rfl, rfl, by simp⟩
  · rw [mem_ite_singleton h]
    exact ⟨rfl, rfl, by simp⟩
  · rw [mem_ite_singleton h]
    exact ⟨rfl, rfl, by simp⟩
  · rw [mem_ite_singleton h]
    exact ⟨rfl, rfl, by simp⟩
  · obtain ⟨o, ho, rfl⟩ := List.mem_map.mp h
    exact ⟨rfl, rfl, by simp⟩

theorem pairwise_of_all {α : Type} {R : α → α → Prop} (h : ∀ a b, R a b) :
    ∀ l : List α, List.Pairwise R l
  | [] => List.Pairwise.nil
  | x :: xs => List.Pairwise.cons (fun y _ => h x y) (pairwise_of_all h xs)

theorem pathR_of_tags (ed ta tb : String) (ia ib : Nat) (a b : AlertEvent)
    (ha : a.image_path = some (save_evidence ed ta ia))
    (hb : b.image_path = some (save_evidence ed tb ib))
    (hne : ta ≠ tb) : pathCollisionOnlyObjects a b := by
  intro hpath
  rw [ha, hb] at hpath
  exact absurd (save_evidence_inj ed ta tb ia ib (Option.some.inj hpath)).1
    hne

theorem generate_alerts_pairwise (session_id : String) (frame_idx : Nat)
    (t : ℚ) (evidence_dir : String) (s : FrameSignals) (st : Counters) :
    List.Pairwise pathCollisionOnlyObjects
      (generate_alerts session_id frame_idx t evidence_dir s st).1 := by
  unfold generate_alerts
  refine List.pairwise_append.mpr ⟨?_, ?_, ?_⟩
  · refine List.pairwise_append.mpr ⟨?_, ?_, ?_⟩
    · refine List.pairwise_append.mpr ⟨?_, ?_, ?_⟩
      · refine List.pairwise_append.mpr ⟨?_, ?_, ?_⟩
        · split <;> (try split) <;> simp [List.pairwise_singleton]
        · split <;> (try split) <;> simp [List.pairwise_singleton]
        · intro a ha b hb
          rw [mem_ite_singleton' ha, mem_ite_singleton hb]
          exact pathR_of_tags evidence_dir "face_missing" "gaze_away"
            frame_idx frame_idx _ _ rfl rfl (by decide)
      · split <;> (try split) <;> simp [List.pairwise_singleton]
      · intro a ha b hb
        rw [mem_ite_singleton hb]
        simp only [List.mem_append] at ha
        rcases ha with ha | ha
        · rw [mem_ite_singleton' ha]
          exact pathR_of_tags evidence_dir "face_missing" "mouth"
            frame_idx frame_idx _ _ rfl rfl (by decide)
        · rw [mem_ite_singleton ha]
          exact pathR_of_tags evidence_dir "gaze_away" "mouth"
            frame_idx frame_idx _ _ rfl rfl (by decide)
    · split <;> (try split) <;> simp [List.pairwise_singleton]
    · intro a ha b hb
      rw [mem_ite_singleton hb]
      simp only [List.mem_append] at ha
      rcases ha with (ha | ha) | ha
      · rw [mem_ite_singleton' ha]
        exact pathR_of_tags evidence_dir "face_missing" "multi_face"
          frame_idx frame_idx _ _ rfl rfl (by decide)
      · rw [mem_ite_singleton ha]
        exact pathR_of_tags evidence_dir "gaze_away" "multi_face"
          frame_idx frame_idx _ _ rfl rfl (by decide)
      · rw [mem_ite_singleton ha]
        exact pathR_of_tags evidence_dir "mouth" "multi_face"
          frame_idx frame_idx _ _ rfl rfl (by decide)
  · exact List.pairwise_map.mpr
      (pairwise_of_all (fun o1 o2 => fun _ => ⟨rfl, rfl, rfl⟩)
        s.object_list)
  · intro a ha b hb
    obtain ⟨o, ho, rfl⟩ := List.mem_map.mp hb
    simp only [List.mem_append] at ha
    rcases ha with ((ha | ha) | ha) | ha
    · rw [mem_ite_singleton' ha]
      exact pathR_of_tags evidence_dir "face_missing" "object"
        frame_idx frame_idx _ _ rfl rfl (by decide)
    · rw [mem_ite_singleton ha]
      exact pathR_of_tags evidence_dir "gaze_away" "object"
        frame_idx frame_idx _ _ rfl rfl (by decide)
    · rw [mem_ite_singleton ha]
      exact pathR_of_tags evidence_dir "mouth" "object"
        frame_idx frame_idx _ _ rfl rfl (by decide)
    · rw [mem_ite_singleton ha]
      exact pathR_of_tags evidence_dir "multi_face" "object"
        frame_idx frame_idx _ _ rfl rfl (by decide)

theorem videoLoop_alerts_wf (S : Nat) (cfg : DetConfig) (sid ed : String)
    (fps : ℚ) :
    ∀ (frames : List FrameData) (idx p : Nat) (lf : Int) (lm : Bool)
      (st : Counters),
      ∀ a ∈ (videoLoop S cfg sid ed fps frames idx p lf lm st).alerts,
        idx ≤ a.frame_index ∧ alertPathWF ed a := by
  intro frames
  induction frames with
  | nil => intro idx p lf lm st a ha; simp [videoLoop] at ha
  | cons fd rest ih =>
    intro idx p lf lm st a ha
    unfold videoLoop at ha
    by_cases hidx : idx % S ≠ 0
    · rw [if_pos hidx] at ha
      have h := ih (idx + 1) p lf lm st a ha
      exact ⟨by omega, h.2⟩
    · rw [if_neg hidx] at ha
      cases hstep : stepFrame cfg p lf lm fd with
      | error e => rw [hstep] at ha; simp at ha
      | ok x =>
        obtain ⟨sig, lf', lm'⟩ := x
        rw [hstep] at ha
        simp only [List.mem_append] at ha
        rcases ha with ha | ha
        · have h := generate_alerts_wf sid idx ((idx : ℚ) / fps) ed sig st
            a ha
          exact ⟨le_of_eq h.1.symm, h.2⟩
        · have h := ih (idx + 1) (p + 1) lf' lm' _ a ha
          exact ⟨by omega, h.2⟩

theorem videoLoop_pairwise (S : Nat) (cfg : DetConfig) (sid ed : String)
    (fps : ℚ) :
    ∀ (frames : List FrameData) (idx p : Nat) (lf : Int) (lm : Bool)
      (st : Counters),
      List.Pairwise pathCollisionOnlyObjects
        (videoLoop S cfg sid ed fps frames idx p lf lm st).alerts := by
  intro frames
  induction frames with
  | nil => intro idx p lf lm st; exact List.Pairwise.nil
  | cons fd rest ih =>
    intro idx p lf lm st
    unfold videoLoop
    by_cases hidx : idx % S ≠ 0
    · rw [if_pos hidx]
      exact ih (idx + 1) p lf lm st
    · rw [if_neg hidx]
      cases hstep : stepFrame cfg p lf lm fd with
      | error e => exact List.Pairwise.nil
      | ok x =>
        obtain ⟨sig, lf', lm'⟩ := x
        refine List.pairwise_append.mpr
          ⟨generate_alerts_pairwise sid idx ((idx : ℚ) / fps) ed sig st,
            ih (idx + 1) (p + 1) lf' lm' _, ?_⟩
        intro a ha b hb
        have hA := generate_alerts_wf sid idx ((idx : ℚ) / fps) ed sig st
          a ha
        have hB := videoLoop_alerts_wf S cfg sid ed fps rest (idx + 1)
          (p + 1) lf' lm' _ b hb
        intro hpath
        rw [hA.2.1, hB.2.1] at hpath
        have hinj := save_evidence_inj ed (typeTag a.type) (typeTag b.type)
          a.frame_index b.frame_index (Option.some.inj hpath)
        have : a.frame_index = b.frame_index := hinj.2
        omega

/-- Claim C9 as amended: within one `analyze_video` run, two distinct fired
alerts are assigned the same evidence file path only when both are
OBJECT_DETECTED alerts of the same processed frame; alerts of different types
or different frames never collide, because the path is keyed by the type's
tag and the raw frame index and that keying is injective. -/
theorem C9_amended_collisions_only_objects (env : AnalyzerEnv)
    (video : VideoSource) (ap sid : Option String) (now : String)
    (cs : Counters) :
    List.Pairwise pathCollisionOnlyObjects
      (analyze_video env video ap sid now cs).alerts := by
  unfold analyze_video
  by_cases hopen : video.opens = true
  · rw [if_neg (fun hc => hc hopen)]
    simp only []
    split <;> split <;>
      exact videoLoop_pairwise FRAME_STRIDE env.cfg _ _ _ video.frames
        0 0 1 false cs
  · rw [if_pos hopen]
    exact List.Pairwise.nil

/-- Claim C9 counterexample: two distinct OBJECT_DETECTED alerts fired on the
same processed frame (one per detected object) are assigned the same evidence
path `object_0.jpg` — the type-tag/frame-index keying does not separate
per-item alerts within one frame. -/
theorem C9_counterexample_shared_object_path :
    ((analyze_video envObj vidObj2 none (some "s") "t"
        Counters.zero).alerts.map (fun a => a.image_path)
      = [some "logs/sessions/evidence/s/object_0.jpg",
          some "logs/sessions/evidence/s/object_0.jpg"])
    ∧ ((analyze_video envObj vidObj2 none (some "s") "t"
        Counters.zero).alerts.map (fun a => a.details)
      = [.obj "phone", .obj "book"]) := by decide
